import Mathlib

/-!
Verification of the InsPublish publication-center logic: the ISBN-13
validator, the channel rule table, the derived ISBN state, the wizard
step controller, the publishing-spine node updates, the delivery phase
simulator, and the mock ISBN generator.  Every definition is a shallow
embedding of the corresponding TypeScript source in
`src/components/ArtifactDownloader.tsx` and
`src/components/CoverManagementModal.tsx`.
-/

/-! ### ISBN-13 validator (`isValidISBN13`) -/

/-- Numeric value of a decimal digit character, as `parseInt` on a
single digit character. -/
def digitVal (c : Char) : Nat := c.toNat - 48

/-- Embedding of `isbn.replace(/[- ]/g, "")`: drop every hyphen and
space character. -/
def stripISBN (s : String) : List Char :=
  s.data.filter fun c => !(c == '-' || c == ' ')

/-- Embedding of the `/^\d\x7b13\x7d$/` test: exactly 13 characters, all
decimal digits. -/
def isThirteenDigits (cs : List Char) : Bool :=
  cs.length == 13 && cs.all Char.isDigit

/-- Embedding of the checksum loop
`sum += parseInt(clean[i]) * (i % 2 === 0 ? 1 : 3)`, accumulating from
index `i` upward over the remaining characters. -/
def weightedSum : List Char → Nat → Nat
  | [], _ => 0
  | c :: cs, i => digitVal c * (if i % 2 = 0 then 1 else 3) + weightedSum cs (i + 1)

/-- Embedding of `isValidISBN13` from `ArtifactDownloader.tsx` lines
373–382 (identical copy in `CoverManagementModal.tsx` lines 507–516):
strip hyphens and spaces, require exactly 13 decimal digits, then
compare the computed check digit with the 13th digit. -/
def isValidISBN13 (isbn : String) : Bool :=
  let clean := stripISBN isbn
  if !isThirteenDigits clean then false
  else
    let sum := weightedSum (clean.take 12) 0
    let checkDigit := (10 - sum % 10) % 10
    checkDigit == digitVal (clean.getD 12 '0')

/-! ### Channel rule table (`CHANNEL_RULES`, `channelRule`) -/

/-- Channel rule record from `types.ts` as used by the source:
requirement flags for a distribution channel. -/
structure ChannelRule where
  requiresISBN : Bool
  allowsPlatformISBN : Bool
  exclusiveRisk : Option Bool := none
  isNonPublishing : Option Bool := none
deriving DecidableEq, Repr

/-- Embedding of the static `CHANNEL_RULES` table from
`ArtifactDownloader.tsx` lines 337–351. -/
def CHANNEL_RULES : List (String × ChannelRule) :=
  [ ("Amazon KDP (Kindle)", { requiresISBN := false, allowsPlatformISBN := false }),
    ("Amazon KDP (Paperback)", { requiresISBN := true, allowsPlatformISBN := true }),
    ("Google Books", { requiresISBN := false, allowsPlatformISBN := false }),
    ("Draft2Digital", { requiresISBN := false, allowsPlatformISBN := false, exclusiveRisk := some false }),
    ("IngramSpark", { requiresISBN := true, allowsPlatformISBN := false }),
    ("Apple Books", { requiresISBN := false, allowsPlatformISBN := false }),
    ("Medium", { requiresISBN := false, allowsPlatformISBN := false, isNonPublishing := some true }),
    ("Substack", { requiresISBN := false, allowsPlatformISBN := false, isNonPublishing := some true }),
    ("Traditional submission", { requiresISBN := false, allowsPlatformISBN := false, isNonPublishing := some true }),
    ("Google Drive", { requiresISBN := false, allowsPlatformISBN := false, isNonPublishing := some true }),
    ("Apple iCloud", { requiresISBN := false, allowsPlatformISBN := false, isNonPublishing := some true }),
    ("Local Device", { requiresISBN := false, allowsPlatformISBN := false, isNonPublishing := some true }),
    ("Direct Publishing", { requiresISBN := false, allowsPlatformISBN := false }) ]

/-- Fallback rule in
`CHANNEL_RULES[targetPlatform] || \x7b requiresISBN: false, allowsPlatformISBN: false \x7d`. -/
def defaultChannelRule : ChannelRule :=
  { requiresISBN := false, allowsPlatformISBN := false }

/-- Embedding of the `channelRule` memo at `ArtifactDownloader.tsx`
line 418: table lookup with a permissive default for unknown names. -/
def channelRule (targetPlatform : String) : ChannelRule :=
  (CHANNEL_RULES.lookup targetPlatform).getD defaultChannelRule

/-! ### Derived ISBN state (`isbnState`) -/

/-- The `ISBNState` enum from `types.ts`. -/
inductive ISBNState where
  | NOT_REQUIRED
  | PROVIDED
  | REQUIRED_UNSET
deriving DecidableEq, Repr

/-- Embedding of the `isbnState` memo at `ArtifactDownloader.tsx` lines
420–423, computed from the channel rule and the current ISBN string. -/
def isbnState (rule : ChannelRule) (isbn : String) : ISBNState :=
  if !rule.requiresISBN then ISBNState.NOT_REQUIRED
  else if isValidISBN13 isbn then ISBNState.PROVIDED
  else ISBNState.REQUIRED_UNSET

/-! ### Wizard data model -/

/-- The `PubStep` enum from `ArtifactDownloader.tsx` lines 318–327. -/
inductive PubStep where
  | SPINE_OVERVIEW
  | TEMPLATE_GALLERY
  | CONFIG
  | DISTRIBUTION_GALLERY
  | TRADITIONAL_SUBMISSION_PREP
  | FINALIZATION
  | DELIVERY_SEQUENCE
  | SUCCESS
deriving DecidableEq, Repr

/-- Modelled from the spec: the `SpineNodeId` enum lives in the missing
`types.ts`; the code under `src/` references only `WRITING` and
`ISBN_ASSIGNED`, and the spec describes the ids as milestone names
("writing → ISBN assigned → ..."), so further constructors stand for the
remaining milestones. -/
inductive SpineNodeId where
  | WRITING
  | ISBN_ASSIGNED
  | OTHER_MILESTONE
deriving DecidableEq, Repr

/-- Spine node status record: `\x7bid, isCompleted, isPendingReview,
timestamp?\x7d` (spec section 3, used by both mutation sites in the
source). -/
structure SpineNodeStatus where
  id : SpineNodeId
  isCompleted : Bool
  isPendingReview : Bool
  timestamp : Option Nat := none
deriving DecidableEq, Repr

/-- Publishing spine state: current node plus a collection of node
statuses keyed by node id (the JS object is modelled as a function to
`Option`). -/
structure PublishingSpineState where
  currentNode : SpineNodeId
  nodes : SpineNodeId → Option SpineNodeStatus

/-- Publishing payload fields of a project that the wizard reads and
writes. -/
structure PublishingPayload where
  author : String := "Author Identity"
  isbn13 : String := ""
  shortDescription : String := ""
  longDescription : String := ""

/-- Project record slice relevant to the publication center. -/
structure Project where
  name : String
  publishingPayload : Option PublishingPayload := none
  publishingSpine : Option PublishingSpineState := none

/-- Local `config` state of `ProfessionalPublicationCenter`
(`ArtifactDownloader.tsx` lines 360–371), restricted to the fields the
claims mention. -/
structure Config where
  author : String
  isbn : String
  shortDescription : String
  longDescription : String
deriving DecidableEq, Repr

/-- Component state of `ProfessionalPublicationCenter`: the `useState`
hooks at `ArtifactDownloader.tsx` lines 354–358 plus the project
prop. -/
structure WizardState where
  step : PubStep
  selectedTemplateId : String
  targetPlatform : String
  deliveryPhase : Nat
  isISBNAssistantOpen : Bool
  config : Config
  project : Project

/-! ### Spine node updates -/

/-- Update of a JS object key: `\x7b ...nodes, [nid]: st \x7d`. -/
def setNode (nodes : SpineNodeId → Option SpineNodeStatus)
    (nid : SpineNodeId) (st : SpineNodeStatus) :
    SpineNodeId → Option SpineNodeStatus :=
  fun i => if i = nid then some st else nodes i

/-- Modelled from the spec: `INITIAL_SPINE_NODES` lives in the missing
`constants.ts`; the spec says spine nodes are created with a project and
start as plain milestones (neither completed nor pending review). -/
def INITIAL_SPINE_NODES : SpineNodeId → Option SpineNodeStatus :=
  fun i => some { id := i, isCompleted := false, isPendingReview := false }

/-- Default spine used by both mutation sites:
`project.publishingSpine || \x7b currentNode: WRITING, nodes: INITIAL_SPINE_NODES() \x7d`. -/
def currentSpineOf (p : Project) : PublishingSpineState :=
  p.publishingSpine.getD
    { currentNode := SpineNodeId.WRITING, nodes := INITIAL_SPINE_NODES }

/-- Embedding of the ISBN branch of `handleUpdateConfig`
(`ArtifactDownloader.tsx` lines 387–415): validate the new ISBN, write
the `ISBN_ASSIGNED` node with `isCompleted := isNowValid` and
`isPendingReview := false`, and store the cleaned ISBN in the payload.
`now` stands for `Date.now()`. -/
def handleUpdateConfigISBN (p : Project) (value : String) (now : Nat) : Project :=
  let isNowValid := isValidISBN13 value
  let currentSpine := currentSpineOf p
  let updatedSpine : PublishingSpineState :=
    { currentSpine with
      nodes := setNode currentSpine.nodes SpineNodeId.ISBN_ASSIGNED
        { id := SpineNodeId.ISBN_ASSIGNED
          isCompleted := isNowValid
          isPendingReview := false
          timestamp :=
            if isNowValid then some now
            else (currentSpine.nodes SpineNodeId.ISBN_ASSIGNED).bind
              SpineNodeStatus.timestamp } }
  { p with
    publishingPayload := some
      { (p.publishingPayload.getD {}) with
        isbn13 := String.mk (stripISBN value) }
    publishingSpine := some updatedSpine }

/-- Embedding of `handleMarkAsSubmitted`
(`CoverManagementModal.tsx` lines 539–561): write the `ISBN_ASSIGNED`
node with `isCompleted := false` and `isPendingReview := true`. -/
def handleMarkAsSubmitted (p : Project) (now : Nat) : Project :=
  let currentSpine := currentSpineOf p
  let updatedSpine : PublishingSpineState :=
    { currentSpine with
      nodes := setNode currentSpine.nodes SpineNodeId.ISBN_ASSIGNED
        { id := SpineNodeId.ISBN_ASSIGNED
          isCompleted := false
          isPendingReview := true
          timestamp := some now } }
  { p with publishingSpine := some updatedSpine }

/-! ### Wizard controller transitions -/

/-- Embedding of `handleInitiateDelivery` (`ArtifactDownloader.tsx`
lines 425–431): if the channel requires an ISBN and the derived ISBN
state is `REQUIRED_UNSET`, open the ISBN assistant and return without
changing the step; otherwise move to `DELIVERY_SEQUENCE`. -/
def handleInitiateDelivery (s : WizardState) : WizardState :=
  let rule := channelRule s.targetPlatform
  if rule.requiresISBN = true ∧ isbnState rule s.config.isbn = ISBNState.REQUIRED_UNSET then
    { s with isISBNAssistantOpen := true }
  else
    { s with step := PubStep.DELIVERY_SEQUENCE }

/-- Back button of the `TEMPLATE_GALLERY` view
(`ArtifactDownloader.tsx` line 517): `setStep(PubStep.SPINE_OVERVIEW)`. -/
def backFromTemplateGallery (s : WizardState) : WizardState :=
  { s with step := PubStep.SPINE_OVERVIEW }

/-- `onBack` of the `CONFIG` view (`ArtifactDownloader.tsx` line 580):
`setStep(PubStep.TEMPLATE_GALLERY)`. -/
def backFromConfig (s : WizardState) : WizardState :=
  { s with step := PubStep.TEMPLATE_GALLERY }

/-- Back button of the `DISTRIBUTION_GALLERY` view
(`ArtifactDownloader.tsx` line 591): `setStep(PubStep.CONFIG)`. -/
def backFromDistributionGallery (s : WizardState) : WizardState :=
  { s with step := PubStep.CONFIG }

/-- Back button of the `FINALIZATION` view
(`ArtifactDownloader.tsx` line 913): `setStep(PubStep.DISTRIBUTION_GALLERY)`. -/
def backFromFinalization (s : WizardState) : WizardState :=
  { s with step := PubStep.DISTRIBUTION_GALLERY }

/-- Back button of the `TRADITIONAL_SUBMISSION_PREP` view
(`ArtifactDownloader.tsx` line 851): `setStep(PubStep.DISTRIBUTION_GALLERY)`. -/
def backFromTraditionalPrep (s : WizardState) : WizardState :=
  { s with step := PubStep.DISTRIBUTION_GALLERY }

/-! ### Delivery phase simulator -/

/-- One entry of the `deliverySteps` list. -/
structure DeliveryStep where
  title : String
  en : String
  icon : String
deriving DecidableEq, Repr

/-- Embedding of the `deliverySteps` list from `ArtifactDownloader.tsx`
lines 433–440: the six named delivery phases, in order. -/
def deliverySteps : List DeliveryStep :=
  [ { title := "內容標準化與 AST 解析", en := "CONTENT NORMALIZATION & AST PARSING", icon := "fa-microchip" },
    { title := "選取最佳封面資產", en := "SELECTING OPTIMAL COVER ASSET", icon := "fa-image" },
    { title := "生成 DOCX 編輯母檔", en := "GENERATING EDITORIAL DOCX ARTIFACT", icon := "fa-file-lines" },
    { title := "封裝 PDF 印刷級手稿", en := "PACKAGING HIGH-FIDELITY PDF", icon := "fa-file-pdf" },
    { title := "構建 EPUB 3 出版規格電子書", en := "BUILDING EPUB 3 STANDARDS E-BOOK", icon := "fa-book" },
    { title := "加密傳輸至出版商通道", en := "ENCRYPTED DELIVERY TO PLATFORM API", icon := "fa-paper-plane" } ]

/-- Interval length of the `setInterval` call in the
`DELIVERY_SEQUENCE` effect (`ArtifactDownloader.tsx` line 452). -/
def deliveryIntervalMs : Nat := 2500

/-- Delay of the `setTimeout(() => setStep(PubStep.SUCCESS), 1500)`
call inside the interval callback (`ArtifactDownloader.tsx` line 447). -/
def successDelayMs : Nat := 1500

/-- Timed state of the delivery-sequence effect: wall-clock time in
milliseconds, the wizard step and phase index, whether the interval is
still scheduled and when it next fires, and the pending `setTimeout`
that will set the step to `SUCCESS`. -/
structure DeliveryTimer where
  now : Nat
  step : PubStep
  deliveryPhase : Nat
  intervalActive : Bool
  nextFireAt : Nat
  successFireAt : Option Nat
deriving DecidableEq, Repr

/-- State created when the `useEffect` at `ArtifactDownloader.tsx`
lines 442–454 runs on entry to `DELIVERY_SEQUENCE` at wall-clock time
`t0`: phase 0, interval armed to fire one interval later, no success
timeout pending. -/
def startDeliveryEffect (t0 : Nat) : DeliveryTimer :=
  { now := t0
    step := PubStep.DELIVERY_SEQUENCE
    deliveryPhase := 0
    intervalActive := true
    nextFireAt := t0 + deliveryIntervalMs
    successFireAt := none }

/-- Embedding of the interval callback body: while the phase index is
below the last phase it advances by one and the interval stays armed;
on the last phase it calls `clearInterval` and schedules
`setTimeout(() => setStep(SUCCESS), 1500)`. -/
def intervalCallback (s : DeliveryTimer) : DeliveryTimer :=
  if s.deliveryPhase < deliverySteps.length - 1 then
    { s with deliveryPhase := s.deliveryPhase + 1
             nextFireAt := s.nextFireAt + deliveryIntervalMs }
  else
    { s with intervalActive := false
             successFireAt := some (s.now + successDelayMs) }

/-- Fire the next scheduled timer callback: the interval while it is
active (the success timeout is only scheduled after `clearInterval`),
otherwise the pending success timeout, whose callback runs
`setStep(PubStep.SUCCESS)`. -/
def timerTick (s : DeliveryTimer) : DeliveryTimer :=
  if s.intervalActive then
    intervalCallback { s with now := s.nextFireAt }
  else
    match s.successFireAt with
    | some t => { s with now := t, successFireAt := none, step := PubStep.SUCCESS }
    | none => s

/-- Embedding of the effect cleanup `() => clearInterval(interval)`
(`ArtifactDownloader.tsx` line 453), run on teardown or step change: it
cancels the interval and nothing else — in particular a pending success
`setTimeout` is left scheduled. -/
def cleanupDeliveryEffect (s : DeliveryTimer) : DeliveryTimer :=
  { s with intervalActive := false }

/-! ### Mock ISBN generator (`handleGenerateMock`) -/

/-- Decimal rendering loop of JS `Number.prototype.toString` for a
natural number, most significant digit first; `fuel` exceeds `n` so the
recursion terminates structurally. -/
def decCharsAux : Nat → Nat → List Char → List Char
  | 0, _, acc => acc
  | fuel + 1, n, acc =>
    if n < 10 then Nat.digitChar n :: acc
    else decCharsAux fuel (n / 10) (Nat.digitChar (n % 10) :: acc)

/-- Embedding of `n.toString()` for a natural number: its decimal digit
characters, most significant first. -/
def natToString (n : Nat) : List Char := decCharsAux (n + 1) n []

/-- Embedding of `.padStart(9, '0')`: left-pad with `'0'` up to length
9, leaving longer strings unchanged. -/
def padStart9 (cs : List Char) : List Char :=
  List.replicate (9 - cs.length) '0' ++ cs

/-- Embedding of `handleGenerateMock` (`CoverManagementModal.tsx` lines
526–536) with the random draw `Math.floor(Math.random() * 1000000000)`
made explicit as the parameter `n`: build the 12-digit prefix
`"978" + body`, run the same weighted-sum loop as the validator over its
first 12 characters, and return `` `978-$\x7bbody\x7d-$\x7bcheckDigit\x7d` ``. -/
def handleGenerateMock (n : Nat) : String :=
  let body := padStart9 (natToString n)
  let fullPfx := '9' :: '7' :: '8' :: body
  let sum := weightedSum (fullPfx.take 12) 0
  let checkDigit := (10 - sum % 10) % 10
  String.mk ('9' :: '7' :: '8' :: '-' :: body ++ '-' :: natToString checkDigit)

/-! ### Helper lemmas -/

/-- Characterization of the validator: `isValidISBN13 s` is `true`
exactly when the cleaned string has 13 characters, all decimal digits,
and the computed check digit equals the 13th digit. -/
lemma isValidISBN13_eq_true_iff (s : String) :
    isValidISBN13 s = true ↔
      (stripISBN s).length = 13 ∧ (∀ c ∈ stripISBN s, c.isDigit = true) ∧
      (10 - weightedSum ((stripISBN s).take 12) 0 % 10) % 10 =
        digitVal ((stripISBN s).getD 12 '0') := by
  unfold isValidISBN13 isThirteenDigits
  by_cases hc : (stripISBN s).length = 13 ∧ ∀ c ∈ stripISBN s, c.isDigit = true
  · rw [if_neg]
    · constructor
      · intro h
        exact ⟨hc.1, hc.2, by simpa using h⟩
      · rintro ⟨-, -, h⟩
        simpa using h
    · simp [hc.1, List.all_eq_true.2 hc.2]
  · rw [if_pos]
    · constructor
      · intro hf
        exact absurd hf (by simp)
      · intro hr
        exact absurd ⟨hr.1, hr.2.1⟩ hc
    · rcases Decidable.not_and_iff_or_not.1 hc with h | h
      · simp [h]
      · rcases not_forall.1 h with ⟨c, hcc⟩
        push_neg at hcc
        simp only [Bool.not_eq_true', Bool.and_eq_false_iff]
        right
        rw [List.all_eq_false]
        exact ⟨c, hcc.1, by simpa using hcc.2⟩

/-! ### Claim theorems: ISBN validator -/

/-- C1: `isValidISBN13` strips hyphens and spaces, returns `false`
unless the cleaned string is exactly 13 decimal digits, and otherwise
accepts exactly when the check digit `(10 - (sum mod 10)) mod 10` of
the alternating 1,3-weighted sum of the first 12 digits equals the 13th
digit; in particular it accepts "9780306406157" and rejects
"9780306406158". -/
theorem C1_isValidISBN13_correct :
    (∀ s : String,
      isValidISBN13 s = true ↔
        (stripISBN s).length = 13 ∧ (∀ c ∈ stripISBN s, c.isDigit = true) ∧
        (10 - weightedSum ((stripISBN s).take 12) 0 % 10) % 10 =
          digitVal ((stripISBN s).getD 12 '0')) ∧
    isValidISBN13 "9780306406157" = true ∧
    isValidISBN13 "9780306406158" = false :=
  ⟨isValidISBN13_eq_true_iff, by decide, by decide⟩

/-- C8: `isValidISBN13` is total and reports every failure as `false`:
whenever the cleaned string is not exactly 13 decimal digits the result
is `false`, and in particular "978-0-306-4061" and "abc1234567890" are
rejected. -/
theorem C8_isValidISBN13_total_false_on_bad_input :
    (∀ s : String,
      ¬((stripISBN s).length = 13 ∧ ∀ c ∈ stripISBN s, c.isDigit = true) →
      isValidISBN13 s = false) ∧
    isValidISBN13 "978-0-306-4061" = false ∧
    isValidISBN13 "abc1234567890" = false := by
  refine ⟨fun s h => ?_, by decide, by decide⟩
  cases hv : isValidISBN13 s with
  | false => rfl
  | true =>
    rcases (isValidISBN13_eq_true_iff s).1 hv with ⟨h1, h2, -⟩
    exact absurd ⟨h1, h2⟩ h

/-- Witness for C8 at the concrete input "abc1234567890". -/
theorem C8_witness :
    isValidISBN13 "abc1234567890" = false :=
  C8_isValidISBN13_total_false_on_bad_input.1 "abc1234567890" (by decide)

/-! ### Claim theorems: channel rules and derived ISBN state -/

/-- C6: a channel name that is not a key of `CHANNEL_RULES` resolves to
the default rule, whose `requiresISBN` is `false`. -/
theorem C6_unknown_channel_defaults (name : String)
    (h : CHANNEL_RULES.lookup name = none) :
    channelRule name = defaultChannelRule ∧
    (channelRule name).requiresISBN = false := by
  unfold channelRule
  rw [h]
  exact ⟨rfl, rfl⟩

/-- Witness for C6 at the unknown channel name "Kobo". -/
theorem C6_witness :
    channelRule "Kobo" = defaultChannelRule ∧
    (channelRule "Kobo").requiresISBN = false :=
  C6_unknown_channel_defaults "Kobo" (by decide)

/-- C3: the derived `isbnState` is `NOT_REQUIRED` whenever the channel
rule does not require an ISBN, and otherwise is `PROVIDED` exactly for
a valid ISBN string and `REQUIRED_UNSET` for an empty or invalid one;
it is a pure function of the rule and the string. -/
theorem C3_isbnState_derived (rule : ChannelRule) (isbn : String) :
    (rule.requiresISBN = false → isbnState rule isbn = ISBNState.NOT_REQUIRED) ∧
    (rule.requiresISBN = true → isValidISBN13 isbn = true →
      isbnState rule isbn = ISBNState.PROVIDED) ∧
    (rule.requiresISBN = true → isValidISBN13 isbn = false →
      isbnState rule isbn = ISBNState.REQUIRED_UNSET) := by
  refine ⟨fun h => ?_, fun h hv => ?_, fun h hv => ?_⟩ <;>
    simp [isbnState, h] <;> simp [hv]

/-- Witness for C3: an ISBN-requiring rule with a valid ISBN yields
`PROVIDED`, and with the empty string yields `REQUIRED_UNSET`. -/
theorem C3_witness :
    isbnState { requiresISBN := true, allowsPlatformISBN := false } "9780306406157" =
      ISBNState.PROVIDED ∧
    isbnState { requiresISBN := true, allowsPlatformISBN := false } "" =
      ISBNState.REQUIRED_UNSET :=
  ⟨(C3_isbnState_derived _ _).2.1 rfl (by decide),
   (C3_isbnState_derived _ _).2.2 rfl (by decide)⟩

/-! ### Claim theorems: wizard controller -/

/-- C2: from `FINALIZATION`, initiating delivery with derived ISBN
state `REQUIRED_UNSET` keeps the step at `FINALIZATION` and opens the
ISBN-assistance sub-flow; with `NOT_REQUIRED` or `PROVIDED` it moves
the step to `DELIVERY_SEQUENCE`. -/
theorem C2_initiate_delivery_guard (s : WizardState)
    (hstep : s.step = PubStep.FINALIZATION) :
    (isbnState (channelRule s.targetPlatform) s.config.isbn = ISBNState.REQUIRED_UNSET →
      (handleInitiateDelivery s).step = PubStep.FINALIZATION ∧
      (handleInitiateDelivery s).isISBNAssistantOpen = true) ∧
    (isbnState (channelRule s.targetPlatform) s.config.isbn = ISBNState.NOT_REQUIRED ∨
     isbnState (channelRule s.targetPlatform) s.config.isbn = ISBNState.PROVIDED →
      (handleInitiateDelivery s).step = PubStep.DELIVERY_SEQUENCE) := by
  constructor
  · intro hru
    have hreq : (channelRule s.targetPlatform).requiresISBN = true := by
      cases hb : (channelRule s.targetPlatform).requiresISBN with
      | true => rfl
      | false =>
        unfold isbnState at hru
        rw [hb] at hru
        simp at hru
    unfold handleInitiateDelivery
    rw [if_pos ⟨hreq, hru⟩]
    exact ⟨hstep, rfl⟩
  · intro hor
    have hne : isbnState (channelRule s.targetPlatform) s.config.isbn ≠
        ISBNState.REQUIRED_UNSET := by
      rcases hor with h | h <;> rw [h] <;> intro hcontra <;> cases hcontra
    unfold handleInitiateDelivery
    rw [if_neg fun hcond => hne hcond.2]

/-- Sample project record used by concrete witnesses. -/
def sampleProject : Project := { name := "P" }

/-- Sample wizard state at `FINALIZATION` targeting the ISBN-requiring
channel "IngramSpark" with an empty ISBN. -/
def sampleState : WizardState :=
  { step := PubStep.FINALIZATION
    selectedTemplateId := "t2"
    targetPlatform := "IngramSpark"
    deliveryPhase := 0
    isISBNAssistantOpen := false
    config := { author := "A", isbn := "", shortDescription := "", longDescription := "" }
    project := sampleProject }

/-- Witness for C2: at `sampleState` the guard blocks the transition
and opens the assistant. -/
theorem C2_witness :
    (handleInitiateDelivery sampleState).step = PubStep.FINALIZATION ∧
    (handleInitiateDelivery sampleState).isISBNAssistantOpen = true :=
  (C2_initiate_delivery_guard sampleState rfl).1 (by decide)

/-- C9: each backward transition of the wizard changes only the current
step: the project record (hence the publishing spine), the saved
configuration, and every other state component are unchanged, and back
navigation is defined from every step it is offered on. -/
theorem C9_back_navigation_frame (s : WizardState) :
    ((backFromTemplateGallery s).step = PubStep.SPINE_OVERVIEW ∧
      (backFromTemplateGallery s).project = s.project ∧
      (backFromTemplateGallery s).config = s.config ∧
      (backFromTemplateGallery s).targetPlatform = s.targetPlatform ∧
      (backFromTemplateGallery s).selectedTemplateId = s.selectedTemplateId ∧
      (backFromTemplateGallery s).deliveryPhase = s.deliveryPhase ∧
      (backFromTemplateGallery s).isISBNAssistantOpen = s.isISBNAssistantOpen) ∧
    ((backFromConfig s).step = PubStep.TEMPLATE_GALLERY ∧
      (backFromConfig s).project = s.project ∧
      (backFromConfig s).config = s.config ∧
      (backFromConfig s).targetPlatform = s.targetPlatform ∧
      (backFromConfig s).selectedTemplateId = s.selectedTemplateId ∧
      (backFromConfig s).deliveryPhase = s.deliveryPhase ∧
      (backFromConfig s).isISBNAssistantOpen = s.isISBNAssistantOpen) ∧
    ((backFromDistributionGallery s).step = PubStep.CONFIG ∧
      (backFromDistributionGallery s).project = s.project ∧
      (backFromDistributionGallery s).config = s.config ∧
      (backFromDistributionGallery s).targetPlatform = s.targetPlatform ∧
      (backFromDistributionGallery s).selectedTemplateId = s.selectedTemplateId ∧
      (backFromDistributionGallery s).deliveryPhase = s.deliveryPhase ∧
      (backFromDistributionGallery s).isISBNAssistantOpen = s.isISBNAssistantOpen) ∧
    ((backFromFinalization s).step = PubStep.DISTRIBUTION_GALLERY ∧
      (backFromFinalization s).project = s.project ∧
      (backFromFinalization s).config = s.config ∧
      (backFromFinalization s).targetPlatform = s.targetPlatform ∧
      (backFromFinalization s).selectedTemplateId = s.selectedTemplateId ∧
      (backFromFinalization s).deliveryPhase = s.deliveryPhase ∧
      (backFromFinalization s).isISBNAssistantOpen = s.isISBNAssistantOpen) ∧
    ((backFromTraditionalPrep s).step = PubStep.DISTRIBUTION_GALLERY ∧
      (backFromTraditionalPrep s).project = s.project ∧
      (backFromTraditionalPrep s).config = s.config ∧
      (backFromTraditionalPrep s).targetPlatform = s.targetPlatform ∧
      (backFromTraditionalPrep s).selectedTemplateId = s.selectedTemplateId ∧
      (backFromTraditionalPrep s).deliveryPhase = s.deliveryPhase ∧
      (backFromTraditionalPrep s).isISBNAssistantOpen = s.isISBNAssistantOpen) :=
  ⟨⟨rfl, rfl, rfl, rfl, rfl, rfl, rfl⟩,
   ⟨rfl, rfl, rfl, rfl, rfl, rfl, rfl⟩,
   ⟨rfl, rfl, rfl, rfl, rfl, rfl, rfl⟩,
   ⟨rfl, rfl, rfl, rfl, rfl, rfl, rfl⟩,
   ⟨rfl, rfl, rfl, rfl, rfl, rfl, rfl⟩⟩

/-! ### Claim theorems: spine invariant -/

/-- Invariant of a node collection: no node is simultaneously completed
and pending review. -/
def nodesOk (nodes : SpineNodeId → Option SpineNodeStatus) : Prop :=
  ∀ i st, nodes i = some st → ¬(st.isCompleted = true ∧ st.isPendingReview = true)

/-- Invariant lifted to a project: whatever spine it stores satisfies
`nodesOk`. -/
def projectSpineOk (p : Project) : Prop :=
  ∀ sp, p.publishingSpine = some sp → nodesOk sp.nodes

/-- The spine a mutation starts from satisfies the invariant whenever
the project does: either it is the stored spine or the freshly created
initial one. -/
lemma currentSpineOf_ok (p : Project) (h : projectSpineOk p) :
    nodesOk (currentSpineOf p).nodes := by
  unfold currentSpineOf
  cases hsp : p.publishingSpine with
  | none =>
    intro i st hst
    simp only [Option.getD_none, INITIAL_SPINE_NODES, Option.some.injEq] at hst
    rw [← hst]
    simp
  | some sp =>
    simpa using h sp hsp

/-- Writing one node preserves the invariant provided the written
status itself satisfies it. -/
lemma nodesOk_setNode {nodes : SpineNodeId → Option SpineNodeStatus}
    (hn : nodesOk nodes) (nid : SpineNodeId) (st : SpineNodeStatus)
    (hst : ¬(st.isCompleted = true ∧ st.isPendingReview = true)) :
    nodesOk (setNode nodes nid st) := by
  intro i st' h
  unfold setNode at h
  split at h
  · cases h
    exact hst
  · exact hn i st' h

/-- C7: both spine-writing operations preserve the invariant that no
node is simultaneously completed and pending review: the ISBN-update
path writes `isPendingReview := false`, and the mark-as-submitted path
writes `isCompleted := false`. -/
theorem C7_spine_invariant_preserved (p : Project) (value : String) (now : Nat)
    (h : projectSpineOk p) :
    projectSpineOk (handleUpdateConfigISBN p value now) ∧
    projectSpineOk (handleMarkAsSubmitted p now) := by
  have hcur := currentSpineOf_ok p h
  constructor
  · intro sp hsp
    simp only [handleUpdateConfigISBN, Option.some.injEq] at hsp
    rw [← hsp]
    exact nodesOk_setNode hcur _ _ (by simp)
  · intro sp hsp
    simp only [handleMarkAsSubmitted, Option.some.injEq] at hsp
    rw [← hsp]
    exact nodesOk_setNode hcur _ _ (by simp)

/-- Witness for C7 at a concrete project with no stored spine. -/
theorem C7_witness :
    projectSpineOk (handleUpdateConfigISBN sampleProject "9780306406157" 7) ∧
    projectSpineOk (handleMarkAsSubmitted sampleProject 7) :=
  C7_spine_invariant_preserved sampleProject "9780306406157" 7
    (fun _ h => Option.noConfusion h)

/-! ### Claim theorems: delivery phase simulator -/

/-- Counterexample for C4: in the timed trace started at time 0 the
last phase (index 5) is reached at 12500 ms, yet the step becomes
`SUCCESS` only at 16500 ms — one interval (2500 ms) plus the 1500 ms
success timeout later — and not at 15000 ms, exactly one interval after
the last phase. -/
theorem C4_counterexample :
    (timerTick^[5] (startDeliveryEffect 0)).deliveryPhase = deliverySteps.length - 1 ∧
    (timerTick^[5] (startDeliveryEffect 0)).now = 12500 ∧
    ((List.range 7).all fun k =>
      !((timerTick^[k] (startDeliveryEffect 0)).step == PubStep.SUCCESS)) = true ∧
    (timerTick^[7] (startDeliveryEffect 0)).step = PubStep.SUCCESS ∧
    (timerTick^[7] (startDeliveryEffect 0)).now = 16500 ∧
    12500 + deliveryIntervalMs ≠ 16500 := by
  decide

/-- C4 (amended): while in `DELIVERY_SEQUENCE` the simulator advances
the phase index by exactly one per interval tick, visiting all six
phases in order without skipping, and after reaching the last phase the
interval fires once more (cancelling itself and scheduling the success
timeout), so the step becomes `SUCCESS` one interval plus the 1500 ms
timeout after the last phase and at no earlier tick. -/
theorem C4_simulator_amended (k : Nat) (hk : k ≤ 5) :
    (timerTick^[k] (startDeliveryEffect 0)).deliveryPhase = k ∧
    (timerTick^[k] (startDeliveryEffect 0)).now = k * deliveryIntervalMs ∧
    (timerTick^[k] (startDeliveryEffect 0)).step = PubStep.DELIVERY_SEQUENCE ∧
    (timerTick^[7] (startDeliveryEffect 0)).step = PubStep.SUCCESS ∧
    (timerTick^[7] (startDeliveryEffect 0)).now =
      5 * deliveryIntervalMs + (deliveryIntervalMs + successDelayMs) ∧
    ((List.range 7).all fun j =>
      !((timerTick^[j] (startDeliveryEffect 0)).step == PubStep.SUCCESS)) = true := by
  interval_cases k <;> decide

/-- Witness for C4 (amended) at tick 3. -/
theorem C4_witness :
    (timerTick^[3] (startDeliveryEffect 0)).deliveryPhase = 3 ∧
    (timerTick^[3] (startDeliveryEffect 0)).now = 3 * deliveryIntervalMs ∧
    (timerTick^[3] (startDeliveryEffect 0)).step = PubStep.DELIVERY_SEQUENCE ∧
    (timerTick^[7] (startDeliveryEffect 0)).step = PubStep.SUCCESS ∧
    (timerTick^[7] (startDeliveryEffect 0)).now =
      5 * deliveryIntervalMs + (deliveryIntervalMs + successDelayMs) ∧
    ((List.range 7).all fun j =>
      !((timerTick^[j] (startDeliveryEffect 0)).step == PubStep.SUCCESS)) = true :=
  C4_simulator_amended 3 (by decide)

/-- C5: the effect cleanup runs `clearInterval` only, so a success
`setTimeout` scheduled by the sixth interval fire survives teardown:
after exiting `DELIVERY_SEQUENCE` the orphaned timer callback still
runs and advances the wizard step to `SUCCESS`, contradicting the
required guaranteed cancellation of every simulator timer. -/
theorem C5_orphan_timeout_after_cleanup :
    (cleanupDeliveryEffect (timerTick^[6] (startDeliveryEffect 0))).successFireAt =
      some 16500 ∧
    (timerTick (cleanupDeliveryEffect (timerTick^[6] (startDeliveryEffect 0)))).step =
      PubStep.SUCCESS := by
  decide

/-! ### Helper lemmas for the mock generator -/

/-- Digit characters below 10 render as decimal digit characters. -/
lemma digitChar_isDigit {m : Nat} (h : m < 10) : (Nat.digitChar m).isDigit = true := by
  interval_cases m <;> decide

/-- Reading back a rendered digit recovers its value. -/
lemma digitVal_digitChar {m : Nat} (h : m < 10) : digitVal (Nat.digitChar m) = m := by
  interval_cases m <;> decide

/-- Every character produced by the decimal rendering loop is a digit. -/
lemma decCharsAux_digits :
    ∀ fuel n acc, (∀ c ∈ acc, c.isDigit = true) →
      ∀ c ∈ decCharsAux fuel n acc, c.isDigit = true := by
  intro fuel
  induction fuel with
  | zero => intro n acc hacc c hc; exact hacc c hc
  | succ fuel ih =>
    intro n acc hacc c hc
    unfold decCharsAux at hc
    split at hc
    · rcases List.mem_cons.1 hc with rfl | hc
      · exact digitChar_isDigit (by omega)
      · exact hacc c hc
    · refine ih (n / 10) _ ?_ c hc
      intro c' hc'
      rcases List.mem_cons.1 hc' with rfl | hc'
      · exact digitChar_isDigit (Nat.mod_lt _ (by norm_num))
      · exact hacc c' hc'

/-- Length bound for the decimal rendering loop: a number below
`10 ^ k` (with `k ≥ 1`) adds at most `k` characters. -/
lemma decCharsAux_length :
    ∀ fuel n acc k, n < fuel → 1 ≤ k → n < 10 ^ k →
      (decCharsAux fuel n acc).length ≤ k + acc.length := by
  intro fuel
  induction fuel with
  | zero => intro n acc k hfuel _ _; omega
  | succ fuel ih =>
    intro n acc k hfuel hk hpow
    unfold decCharsAux
    split
    · simp only [List.length_cons]
      omega
    · rename_i hge
      have h10 : 10 ≤ n := by omega
      have hk2 : 2 ≤ k := by
        by_contra hlt
        have : k = 1 := by omega
        rw [this] at hpow
        simp at hpow
        omega
      have hrec := ih (n / 10) (Nat.digitChar (n % 10) :: acc) (k - 1)
        (by
          have hdiv : n / 10 < n := Nat.div_lt_self (by omega) (by norm_num)
          omega)
        (by omega)
        (by
          rw [Nat.div_lt_iff_lt_mul (by norm_num : 0 < 10)]
          calc n < 10 ^ k := hpow
            _ = 10 ^ (k - 1) * 10 := by
                rw [← pow_succ]
                congr 1
                omega)
      simp only [List.length_cons] at hrec
      omega

/-- Every character of `natToString n` is a decimal digit. -/
lemma natToString_digits (n : Nat) : ∀ c ∈ natToString n, c.isDigit = true :=
  decCharsAux_digits _ _ _ (by intro c hc; cases hc)

/-- A number below one billion renders with at most 9 characters. -/
lemma natToString_length_le (n : Nat) (h : n < 1000000000) :
    (natToString n).length ≤ 9 := by
  have h9 : n < 10 ^ 9 := by norm_num at h ⊢; omega
  simpa using decCharsAux_length (n + 1) n [] 9 (Nat.lt_succ_self n) (by norm_num) h9

/-- A single-digit number renders as its digit character alone. -/
lemma natToString_lt_ten {m : Nat} (h : m < 10) :
    natToString m = [Nat.digitChar m] := by
  unfold natToString decCharsAux
  rw [if_pos h]

/-- Padding to width 9 yields exactly 9 characters when the input has
at most 9. -/
lemma padStart9_length {cs : List Char} (h : cs.length ≤ 9) :
    (padStart9 cs).length = 9 := by
  simp only [padStart9, List.length_append, List.length_replicate]
  omega

/-- Padding with `'0'` keeps an all-digit string all digits. -/
lemma padStart9_digits {cs : List Char} (h : ∀ c ∈ cs, c.isDigit = true) :
    ∀ c ∈ padStart9 cs, c.isDigit = true := by
  intro c hc
  rcases List.mem_append.1 hc with hc | hc
  · rw [List.eq_of_mem_replicate hc]
    decide
  · exact h c hc

/-- Decimal digit characters survive the hyphen/space strip. -/
lemma digit_kept {c : Char} (h : c.isDigit = true) :
    (!(c == '-' || c == ' ')) = true := by
  have h1 : ¬(c = '-') := fun e => by rw [e] at h; exact absurd h (by decide)
  have h2 : ¬(c = ' ') := fun e => by rw [e] at h; exact absurd h (by decide)
  simp [h1, h2]

/-- Core of C10: a mock string built from any 9-digit body with the
generator's check digit passes the validator. -/
lemma mock_isbn_valid_of_body (body : List Char)
    (hblen : body.length = 9) (hbdig : ∀ c ∈ body, c.isDigit = true) :
    isValidISBN13 (String.mk ('9' :: '7' :: '8' :: '-' :: body ++ '-' ::
      natToString ((10 - weightedSum (('9' :: '7' :: '8' :: body).take 12) 0 % 10) % 10))) =
      true := by
  have hfplen : ('9' :: '7' :: '8' :: body).length = 12 := by simp [hblen]
  have hck10 : ((10 - weightedSum (('9' :: '7' :: '8' :: body).take 12) 0 % 10) % 10) < 10 :=
    Nat.mod_lt _ (by norm_num)
  have hcks := natToString_lt_ten hck10
  have hclean : stripISBN (String.mk ('9' :: '7' :: '8' :: '-' :: body ++ '-' ::
      natToString ((10 - weightedSum (('9' :: '7' :: '8' :: body).take 12) 0 % 10) % 10))) =
      ('9' :: '7' :: '8' :: body) ++
        [Nat.digitChar ((10 - weightedSum (('9' :: '7' :: '8' :: body).take 12) 0 % 10) % 10)] := by
    show List.filter _ ('9' :: '7' :: '8' :: '-' :: body ++ '-' ::
      natToString ((10 - weightedSum (('9' :: '7' :: '8' :: body).take 12) 0 % 10) % 10)) = _
    rw [hcks]
    have c9 : (!(('9' : Char) == '-' || ('9' : Char) == ' ')) = true := by decide
    have c7 : (!(('7' : Char) == '-' || ('7' : Char) == ' ')) = true := by decide
    have c8 : (!(('8' : Char) == '-' || ('8' : Char) == ' ')) = true := by decide
    have cdash : (!(('-' : Char) == '-' || ('-' : Char) == ' ')) = false := by decide
    have cdc := digit_kept (digitChar_isDigit hck10)
    have cbody := List.filter_eq_self.2
      (fun c hc => digit_kept (hbdig c hc) :
        ∀ c ∈ body, (!(c == '-' || c == ' ')) = true)
    simp only [List.filter_cons, List.filter_append, List.filter_nil,
      c9, c7, c8, cdash, cdc, cbody, if_true, if_false, List.cons_append,
      List.nil_append, Bool.false_eq_true, Bool.true_eq_false]
  refine (isValidISBN13_eq_true_iff _).2 ?_
  rw [hclean]
  refine ⟨by simp [hblen], ?_, ?_⟩
  · intro c hc
    simp only [List.cons_append, List.mem_cons] at hc
    rcases hc with rfl | rfl | rfl | hc
    · decide
    · decide
    · decide
    · rcases List.mem_append.1 hc with hc | hc
      · exact hbdig c hc
      · rw [List.mem_singleton.1 hc]
        exact digitChar_isDigit hck10
  · have htake : (('9' :: '7' :: '8' :: body) ++
        [Nat.digitChar ((10 - weightedSum (('9' :: '7' :: '8' :: body).take 12) 0 % 10) % 10)]).take 12 =
        '9' :: '7' :: '8' :: body := by
      have h12 := List.take_left ('9' :: '7' :: '8' :: body)
        [Nat.digitChar ((10 - weightedSum (('9' :: '7' :: '8' :: body).take 12) 0 % 10) % 10)]
      rwa [hfplen] at h12
    have hgetD : (('9' :: '7' :: '8' :: body) ++
        [Nat.digitChar ((10 - weightedSum (('9' :: '7' :: '8' :: body).take 12) 0 % 10) % 10)]).getD 12 '0' =
        Nat.digitChar ((10 - weightedSum (('9' :: '7' :: '8' :: body).take 12) 0 % 10) % 10) := by
      rw [List.getD_append_right _ _ _ _ (le_of_eq hfplen), hfplen]
      simp
    rw [htake, hgetD, digitVal_digitChar hck10,
      List.take_of_length_le (le_of_eq hfplen)]

/-- C10: every ISBN string produced by `handleGenerateMock` — "978"
plus a zero-padded 9-digit body plus the generator's check digit,
joined with hyphens — is accepted by `isValidISBN13`. -/
theorem C10_generated_isbn_valid (n : Nat) (h : n < 1000000000) :
    isValidISBN13 (handleGenerateMock n) = true := by
  have hblen : (padStart9 (natToString n)).length = 9 :=
    padStart9_length (natToString_length_le n h)
  have hbdig : ∀ c ∈ padStart9 (natToString n), c.isDigit = true :=
    padStart9_digits (natToString_digits n)
  exact mock_isbn_valid_of_body (padStart9 (natToString n)) hblen hbdig

/-- Witness for C10 at the concrete draw 123456789. -/
theorem C10_witness :
    isValidISBN13 (handleGenerateMock 123456789) = true :=
  C10_generated_isbn_valid 123456789 (by norm_num)

/-- Witness for C1 at the concrete valid input "9780306406157". -/
theorem C1_witness :
    isValidISBN13 "9780306406157" = true :=
  C1_isValidISBN13_correct.2.1

/-- Witness for C9 at the concrete `sampleState`. -/
theorem C9_witness :
    (backFromFinalization sampleState).step = PubStep.DISTRIBUTION_GALLERY ∧
    (backFromFinalization sampleState).project = sampleState.project ∧
    (backFromFinalization sampleState).config = sampleState.config :=
  ⟨(C9_back_navigation_frame sampleState).2.2.2.1.1,
   (C9_back_navigation_frame sampleState).2.2.2.1.2.1,
   (C9_back_navigation_frame sampleState).2.2.2.1.2.2.1⟩
